import Mathlib

/-!
Shallow embedding of the token-selection engine of
`packages/arb-token-bridge-ui/src/components/TokenModal/TokenModal.tsx`.

JavaScript objects with string keys are modelled as insertion-ordered
association lists (`List (String × _)`); `Object.keys` is the list of first
components, and property lookup is the first matching entry.  Ethers
`BigNumber` balances are modelled as `Int`; an absent (`undefined`) value is
`Option.none`.  `String.prototype.includes` is modelled as `containsStr`
(substring test on the character lists); `trim`/`toLowerCase` are modelled by
`trimStr`/`toLowerStr` below (ASCII case folding, which covers every string
the component compares).
-/

namespace TokenModal

/-- `SearchableToken` from `TokenModalUtils`: an ERC-20 token record keyed by
its L1 `address`, with an optional L2 address and token-list provenance. -/
structure SearchableToken where
  address : String
  name : String
  symbol : String
  decimals : Nat
  logoURI : Option String
  l2Address : Option String
  tokenLists : List Nat
  listID : Option Nat
deriving Repr, DecidableEq

/-- A per-token entry of the external balance map: the L1 balance and the
L2 (`arbChain`) balance, each possibly not yet loaded. -/
structure BalancePair where
  balance : Option Int
  arbChainBalance : Option Int
deriving Repr, DecidableEq

/-- The external balance map: the native-asset (`eth`) pair plus the `erc20`
map keyed by token address. -/
structure Balances where
  eth : BalancePair
  erc20 : List (String × BalancePair)
deriving Repr, DecidableEq

/-- Sentinel identifier for the native asset (`const ETH_IDENTIFIER =
'eth.address'` in `TokenModal.tsx`). -/
def ETH_IDENTIFIER : String := "eth.address"

/-- JavaScript property lookup on an insertion-ordered object: the first
entry with the given key, if any. -/
def lookupAssoc {α : Type} : List (String × α) → String → Option α
  | [], _ => none
  | p :: m, k => if p.fst = k then some p.snd else lookupAssoc m k

/-- `Object.keys`: the keys of the association list in insertion order. -/
def keys {α : Type} (m : List (String × α)) : List String :=
  m.map Prod.fst

/-- `getBalance` (TokenModal.tsx lines 334-347): for the native sentinel read
the `eth` pair, otherwise the `erc20` entry for the address; the side of the
pair is chosen by `isDepositMode`.  `balances` itself may be `undefined`. -/
def getBalance (balances : Option Balances) (isDepositMode : Bool)
    (address : String) : Option Int :=
  match balances with
  | none => none
  | some b =>
    if address = ETH_IDENTIFIER then
      if isDepositMode then b.eth.balance else b.eth.arbChainBalance
    else
      match lookupAssoc b.erc20 address with
      | none => none
      | some p => if isDepositMode then p.balance else p.arbChainBalance

/-- Model of `String.prototype.includes`: `q` occurs as a contiguous
substring of `s`. -/
def containsStr (s q : String) : Bool :=
  decide (q.toList <:+: s.toList)

/-- Model of `String.prototype.toLowerCase` (ASCII case folding, which covers
every string the component compares), written by structural recursion over
the character list. -/
def toLowerStr (s : String) : String :=
  String.mk (s.data.map Char.toLower)

/-- Model of `String.prototype.trim`: drop leading and trailing whitespace. -/
def trimStr (s : String) : String :=
  String.mk
    (((s.data.dropWhile Char.isWhitespace).reverse.dropWhile
        Char.isWhitespace).reverse)

/-- The record the filter consults for an address:
`tokensFromUser[address] || tokensFromLists[address]` (line 377) — the
user map is read first. -/
def searchRecord (user lists : List (String × SearchableToken))
    (address : String) : Option SearchableToken :=
  (lookupAssoc user address).orElse (fun _ => lookupAssoc lists address)

/-- The record the row renderer passes to the selection callback:
`tokensFromLists[address] || tokensFromUser[address]` (lines 499-500) — the
list map is read first. -/
def renderedToken (user lists : List (String × SearchableToken))
    (address : String) : Option SearchableToken :=
  (lookupAssoc lists address).orElse (fun _ => lookupAssoc user address)

/-- The haystack the search filter matches against:
`(token.name + token.symbol + token.address + (token.l2Address || ''))
.toLowerCase()` (lines 379-387). -/
def searchText (t : SearchableToken) : String :=
  toLowerStr (t.name ++ t.symbol ++ t.address ++ t.l2Address.getD "")

/-- The filter predicate of `tokensToShow` (lines 360-388).  With an empty
search the native sentinel always passes and any other address needs a
present, strictly positive balance (`balance && balance.gt(0)`); with a
non-empty search the sentinel passes when `"ethereumeth"` contains the query,
and any other address when its `searchText` contains the query.  The `none`
branch of `searchRecord` is unreachable for pipeline candidates (they are map
keys); JavaScript would throw there. -/
def showToken (user lists : List (String × SearchableToken))
    (balances : Option Balances) (isDepositMode : Bool)
    (tokenSearch : String) (address : String) : Bool :=
  if tokenSearch = "" then
    if address = ETH_IDENTIFIER then
      true
    else
      match getBalance balances isDepositMode address with
      | none => false
      | some v => decide (0 < v)
  else if address = ETH_IDENTIFIER then
    containsStr "ethereumeth" tokenSearch
  else
    match searchRecord user lists address with
    | some t => containsStr (searchText t) tokenSearch
    | none => false

/-- The sort comparator of `tokensToShow` (lines 389-413): the native
sentinel is pinned first; otherwise a missing balance sorts after a present
one, two missing balances tie, and two present balances compare by
`bal1.gt(bal2) ? -1 : 1`. -/
def compareTokens (balances : Option Balances) (isDepositMode : Bool)
    (a1 a2 : String) : Int :=
  if a1 = ETH_IDENTIFIER then
    -1
  else if a2 = ETH_IDENTIFIER then
    1
  else
    match getBalance balances isDepositMode a1,
        getBalance balances isDepositMode a2 with
    | none, none => 0
    | none, some _ => 1
    | some _, none => -1
    | some b1, some b2 => if b2 < b1 then -1 else 1

/-- Keep-before relation induced by the comparator: the first argument may
stay left of the second exactly when the comparator does not order it
strictly after. -/
def tokenLE (balances : Option Balances) (isDepositMode : Bool)
    (a1 a2 : String) : Bool :=
  decide (compareTokens balances isDepositMode a1 a2 ≤ 0)

/-- Stable insertion of `a` into `l`: `a` goes in front of the first element
it need not follow. -/
def insertSorted (le : String → String → Bool) (a : String) :
    List String → List String
  | [] => [a]
  | b :: l => if le a b then a :: b :: l else b :: insertSorted le a l

/-- Stable sort modelling `Array.prototype.sort` with a comparator (the
ECMAScript sort is stable; for the pairs on which this comparator is
inconsistent the ECMAScript order is implementation-defined, and this model
fixes one order). -/
def insertionSort (le : String → String → Bool) : List String → List String
  | [] => []
  | a :: l => insertSorted le a (insertionSort le l)

/-- One step of `new Set` construction: append the element unless already
seen, keeping first-occurrence order. -/
def addUnique (acc : List String) (a : String) : List String :=
  if a ∈ acc then acc else acc ++ [a]

/-- `[...new Set(l)]`: deduplicate keeping the first occurrence of each
element, in order. -/
def dedupFirst (l : List String) : List String :=
  l.foldl addUnique []

/-- The aggregated candidate sequence (lines 352-359): the native sentinel
followed by the deduplicated union of user-map and list-map keys. -/
def candidateList (user lists : List (String × SearchableToken)) :
    List String :=
  ETH_IDENTIFIER :: dedupFirst (keys user ++ keys lists)

/-- `tokensToShow` (lines 349-414): trim and lower-case the raw input, build
the candidate sequence, filter by `showToken`, and sort by the comparator. -/
def tokensToShow (user lists : List (String × SearchableToken))
    (balances : Option Balances) (isDepositMode : Bool)
    (newToken : String) : List String :=
  let tokenSearch := toLowerStr (trimStr newToken)
  insertionSort (tokenLE balances isDepositMode)
    ((candidateList user lists).filter
      (showToken user lists balances isDepositMode tokenSearch))

/-- Metadata returned by `token.getL1TokenData` (external collaborator);
only its presence and payload identity matter to the dispatcher. -/
structure L1TokenData where
  name : String
  symbol : String
  decimals : Nat
deriving Repr, DecidableEq

/-- A raised JavaScript error, discriminated by its `name` property (the code
checks `error.name === 'TokenDisabledError'`). -/
structure JsError where
  name : String
deriving Repr, DecidableEq

/-- Observable outcome of one `selectToken` call (TokenModal.tsx lines
537-572): whether `close()` ran, whether `setSelectedToken(null)` ran,
the `onImportToken` argument if any, whether `getL1TokenData` was awaited,
whether `updateTokenData` ran, the record passed to `setSelectedToken`
(the fetched data paired with the chosen record's `l2Address`, modelling
`{ ...toERC20BridgeToken(data), l2Address: _token.l2Address }`), whether the
disabled-token `alert` fired, and whether `console.warn` logged an error. -/
structure SelectOutcome where
  closed : Bool
  clearedSelection : Bool
  importRequested : Option String
  fetchAttempted : Bool
  updateRequested : Bool
  selectionSet : Option (L1TokenData × Option String)
  alerted : Bool
  logged : Bool
deriving Repr, DecidableEq

/-- Body of the `try` block of `selectToken` (lines 549-564).  `bridgeTokens`
is the active bridge-token set, itself possibly `undefined` (a property read
on `undefined` raises a `TypeError`).  The awaited
`token?.getL1TokenData(...)` is modelled by its result: `Except.error` for a
rejected promise, `Except.ok none` when the bridge API is `undefined` (so
`data` is falsy), `Except.ok (some data)` otherwise.  A raised error carries
whether the fetch had been attempted when it was raised. -/
def selectTokenAttempt (bridgeTokens : Option (String → Bool))
    (fetch : Except JsError (Option L1TokenData))
    (t : SearchableToken) : Except (JsError × Bool) SelectOutcome :=
  match bridgeTokens with
  | none => Except.error ({ name := "TypeError" }, false)
  | some known =>
    if known t.address = false then
      Except.ok
        { closed := true, clearedSelection := false,
          importRequested := some t.address, fetchAttempted := false,
          updateRequested := false, selectionSet := none,
          alerted := false, logged := false }
    else
      match fetch with
      | Except.error e => Except.error (e, true)
      | Except.ok none =>
        Except.ok
          { closed := true, clearedSelection := false,
            importRequested := none, fetchAttempted := true,
            updateRequested := false, selectionSet := none,
            alerted := false, logged := false }
      | Except.ok (some data) =>
        Except.ok
          { closed := true, clearedSelection := false,
            importRequested := none, fetchAttempted := true,
            updateRequested := true,
            selectionSet := some (data, t.l2Address),
            alerted := false, logged := false }

/-- The Selection Dispatcher `selectToken` (lines 537-572): `close()` always
runs first; a `null` token clears the selection; a token with an empty
`address` string is falsy (`if (!_token.address) return`) and does nothing
further; otherwise the `try` body runs and any raised error is caught at the
call site — logged, and additionally alerted when its name is
`TokenDisabledError`. -/
def selectToken (bridgeTokens : Option (String → Bool))
    (fetch : Except JsError (Option L1TokenData))
    (chosen : Option SearchableToken) : SelectOutcome :=
  match chosen with
  | none =>
    { closed := true, clearedSelection := true, importRequested := none,
      fetchAttempted := false, updateRequested := false,
      selectionSet := none, alerted := false, logged := false }
  | some t =>
    if t.address = "" then
      { closed := true, clearedSelection := false, importRequested := none,
        fetchAttempted := false, updateRequested := false,
        selectionSet := none, alerted := false, logged := false }
    else
      match selectTokenAttempt bridgeTokens fetch t with
      | Except.ok o => o
      | Except.error (e, attempted) =>
        { closed := true, clearedSelection := false,
          importRequested := none, fetchAttempted := attempted,
          updateRequested := false, selectionSet := none,
          alerted := decide (e.name = "TokenDisabledError"), logged := true }

/-- Component state relevant to the add-new-token flow: the `isAddingToken`
flag plus the number of `storeNewToken` requests currently in flight (an
auxiliary observer, not a React state). -/
structure AddTokenState where
  isAddingToken : Bool
  outstanding : Nat
deriving Repr, DecidableEq

/-- Events of the add-new-token flow: a form submission (with the result of
the `isAddress(newToken)` validity check) and the settling of an in-flight
request (with whether it succeeded; the `finally` clause runs either way). -/
inductive AddTokenEvent where
  | submit (validAddress : Bool)
  | settle (succeeded : Bool)
deriving Repr, DecidableEq

/-- One step of the add-new-token flow on the UI event loop (`addNewToken`,
TokenModal.tsx lines 426-442): a submission is dropped when the address is
invalid or a request is already in flight (`if (!isAddress(newToken) ||
isAddingToken) return`); otherwise the flag is set and the request starts.
When an in-flight request settles, the `finally` clause clears the flag
whether the promise fulfilled or rejected.  A settle event with nothing in
flight cannot occur and is a no-op. -/
def addTokenStep : AddTokenEvent → AddTokenState → AddTokenState
  | AddTokenEvent.submit valid, s =>
    if valid = false ∨ s.isAddingToken = true then s
    else { isAddingToken := true, outstanding := s.outstanding + 1 }
  | AddTokenEvent.settle _, s =>
    if s.outstanding = 0 then s
    else { isAddingToken := false, outstanding := s.outstanding - 1 }

/-- The add-new-token flow state reached from the initial render (flag clear,
nothing in flight) by a sequence of events. -/
def addTokenRun (evs : List AddTokenEvent) : AddTokenState :=
  evs.foldl (fun s e => addTokenStep e s) { isAddingToken := false, outstanding := 0 }

theorem mem_insertSorted (le : String → String → Bool) (a x : String) :
    ∀ l : List String, (x ∈ insertSorted le a l ↔ x = a ∨ x ∈ l) := by
  intro l
  induction l with
  | nil => simp [insertSorted]
  | cons b l ih =>
    simp only [insertSorted]
    by_cases h : le a b = true
    · simp [h, List.mem_cons]
    · simp only [if_neg h, List.mem_cons, ih]
      tauto

theorem mem_insertionSort (le : String → String → Bool) (x : String) :
    ∀ l : List String, (x ∈ insertionSort le l ↔ x ∈ l) := by
  intro l
  induction l with
  | nil => simp [insertionSort]
  | cons a l ih =>
    simp [insertionSort, mem_insertSorted, ih, List.mem_cons]

theorem insertSorted_of_forall (le : String → String → Bool) (a : String)
    (h : ∀ b : String, le a b = true) :
    ∀ l : List String, insertSorted le a l = a :: l := by
  intro l
  cases l with
  | nil => rfl
  | cons b l => simp [insertSorted, h b]

theorem compareTokens_eth_left (balances : Option Balances)
    (isDepositMode : Bool) (b : String) :
    compareTokens balances isDepositMode ETH_IDENTIFIER b = -1 := by
  simp [compareTokens]

theorem tokenLE_eth_left (balances : Option Balances) (isDepositMode : Bool)
    (b : String) :
    tokenLE balances isDepositMode ETH_IDENTIFIER b = true := by
  simp [tokenLE, compareTokens_eth_left]

theorem mem_foldl_addUnique (x : String) :
    ∀ (l acc : List String),
      (x ∈ l.foldl addUnique acc ↔ x ∈ acc ∨ x ∈ l) := by
  intro l
  induction l with
  | nil => simp
  | cons a l ih =>
    intro acc
    simp only [List.foldl_cons, ih, List.mem_cons]
    unfold addUnique
    by_cases h : a ∈ acc
    · simp only [if_pos h]
      constructor
      · tauto
      · rintro (hx | hx | hx)
        · exact Or.inl hx
        · exact Or.inl (hx ▸ h)
        · exact Or.inr hx
    · simp only [if_neg h, List.mem_append, List.mem_singleton]
      tauto

theorem mem_dedupFirst (x : String) (l : List String) :
    x ∈ dedupFirst l ↔ x ∈ l := by
  simp [dedupFirst, mem_foldl_addUnique]

theorem lookupAssoc_mem_keys {α : Type} (a : String) :
    ∀ m : List (String × α), (a ∈ keys m ↔ ∃ t, lookupAssoc m a = some t) := by
  intro m
  induction m with
  | nil => simp [keys, lookupAssoc]
  | cons p m ih =>
    simp only [keys, List.map_cons, List.mem_cons, lookupAssoc]
    by_cases h : p.fst = a
    · simp [h]
    · simp only [if_neg h, ← ih, keys]
      constructor
      · rintro (hx | hx)
        · exact absurd hx.symm h
        · exact hx
      · exact Or.inr

theorem searchRecord_some (user lists : List (String × SearchableToken))
    (a : String) (h : a ∈ keys user ++ keys lists) :
    ∃ t, searchRecord user lists a = some t := by
  rcases List.mem_append.mp h with hu | hl
  · rcases (lookupAssoc_mem_keys a user).mp hu with ⟨t, ht⟩
    exact ⟨t, by simp [searchRecord, ht, Option.orElse]⟩
  · rcases (lookupAssoc_mem_keys a lists).mp hl with ⟨t, ht⟩
    cases hu : lookupAssoc user a with
    | none => exact ⟨t, by simp [searchRecord, hu, ht, Option.orElse]⟩
    | some tu => exact ⟨tu, by simp [searchRecord, hu, Option.orElse]⟩

theorem mem_tokensToShow (user lists : List (String × SearchableToken))
    (balances : Option Balances) (isDepositMode : Bool)
    (newToken a : String) :
    a ∈ tokensToShow user lists balances isDepositMode newToken ↔
      a ∈ candidateList user lists ∧
        showToken user lists balances isDepositMode
          (toLowerStr (trimStr newToken)) a = true := by
  simp only [tokensToShow]
  rw [mem_insertionSort]
  exact List.mem_filter

/-- Sample user-added token used for concrete instances: the search haystack
is the concatenation "ab0xa". -/
def tokenAB : SearchableToken :=
  { address := "0xa", name := "a", symbol := "b", decimals := 18,
    logoURI := none, l2Address := none, tokenLists := [], listID := none }

/-- Sample list-sourced record for the same address as `tokenAB` but with a
different name, exhibiting user-map/list-map disagreement. -/
def tokenABListed : SearchableToken :=
  { address := "0xa", name := "listname", symbol := "b", decimals := 18,
    logoURI := none, l2Address := none, tokenLists := [1], listID := some 1 }

/-- Sample balance map in which two distinct addresses hold the same deposit
balance. -/
def balancesEqPair : Balances :=
  { eth := { balance := none, arbChainBalance := none },
    erc20 := [("0xa", { balance := some 5, arbChainBalance := none }),
              ("0xb", { balance := some 5, arbChainBalance := none })] }

/-- C1: for every non-empty search query (the trimmed, lower-cased input), a
non-native candidate survives filtering iff the lower-cased concatenation of
its name, symbol, address, and secondary-chain address (empty string when
absent) — `searchText` of the record the filter consults — contains the
query as a substring, and the native-asset entry survives iff the fixed
string "ethereumeth" contains the query as a substring. -/
theorem tokensToShow_search_filter_iff
    (user lists : List (String × SearchableToken))
    (balances : Option Balances) (isDepositMode : Bool) (newToken : String)
    (hq : toLowerStr (trimStr newToken) ≠ "") :
    (ETH_IDENTIFIER ∈ tokensToShow user lists balances isDepositMode newToken
      ↔ containsStr "ethereumeth" (toLowerStr (trimStr newToken)) = true) ∧
    (∀ a : String, a ≠ ETH_IDENTIFIER → a ∈ keys user ++ keys lists →
      (a ∈ tokensToShow user lists balances isDepositMode newToken ↔
        ∃ t, searchRecord user lists a = some t ∧
          containsStr (searchText t) (toLowerStr (trimStr newToken)) = true)) := by
  constructor
  · rw [mem_tokensToShow]
    have hc : ETH_IDENTIFIER ∈ candidateList user lists :=
      List.mem_cons_self _ _
    simp [hc, showToken, hq]
  · intro a ha hk
    rw [mem_tokensToShow]
    have hc : a ∈ candidateList user lists :=
      List.mem_cons_of_mem _ ((mem_dedupFirst a _).mpr hk)
    obtain ⟨t, ht⟩ := searchRecord_some user lists a hk
    simp [hc, showToken, hq, ha, ht]

/-- Closed instance of `tokensToShow_search_filter_iff` at a concrete map
and query. -/
theorem tokensToShow_search_filter_iff_witness :
    (toLowerStr (trimStr "ab") ≠ "") ∧
    ((ETH_IDENTIFIER ∈ tokensToShow [("0xa", tokenAB)] [] none true "ab"
        ↔ containsStr "ethereumeth" (toLowerStr (trimStr "ab")) = true) ∧
      (∀ a : String, a ≠ ETH_IDENTIFIER →
        a ∈ keys [("0xa", tokenAB)] ++
            keys ([] : List (String × SearchableToken)) →
        (a ∈ tokensToShow [("0xa", tokenAB)] [] none true "ab" ↔
          ∃ t, searchRecord [("0xa", tokenAB)] [] a = some t ∧
            containsStr (searchText t) (toLowerStr (trimStr "ab")) = true))) :=
  ⟨by decide,
    tokensToShow_search_filter_iff [("0xa", tokenAB)] [] none true "ab"
      (by decide)⟩

/-- C3: for every empty search query, the native-asset entry is retained and
every other candidate is retained iff its looked-up balance in the active
mode is present and strictly positive. -/
theorem tokensToShow_empty_query_iff
    (user lists : List (String × SearchableToken))
    (balances : Option Balances) (isDepositMode : Bool) (newToken : String)
    (hq : toLowerStr (trimStr newToken) = "") :
    ETH_IDENTIFIER ∈ tokensToShow user lists balances isDepositMode newToken ∧
    (∀ a : String, a ≠ ETH_IDENTIFIER → a ∈ keys user ++ keys lists →
      (a ∈ tokensToShow user lists balances isDepositMode newToken ↔
        ∃ v : Int, getBalance balances isDepositMode a = some v ∧ 0 < v)) := by
  constructor
  · rw [mem_tokensToShow]
    have hc : ETH_IDENTIFIER ∈ candidateList user lists :=
      List.mem_cons_self _ _
    simp [hc, showToken, hq]
  · intro a ha hk
    rw [mem_tokensToShow]
    have hc : a ∈ candidateList user lists :=
      List.mem_cons_of_mem _ ((mem_dedupFirst a _).mpr hk)
    cases hb : getBalance balances isDepositMode a with
    | none => simp [hc, showToken, hq, ha, hb]
    | some v => simp [hc, showToken, hq, ha, hb]

/-- Closed instance of `tokensToShow_empty_query_iff` at a concrete map and
a whitespace-only query. -/
theorem tokensToShow_empty_query_iff_witness :
    (toLowerStr (trimStr "  ") = "") ∧
    (ETH_IDENTIFIER ∈ tokensToShow [("0xa", tokenAB)] []
        (some balancesEqPair) true "  " ∧
      (∀ a : String, a ≠ ETH_IDENTIFIER →
        a ∈ keys [("0xa", tokenAB)] ++
            keys ([] : List (String × SearchableToken)) →
        (a ∈ tokensToShow [("0xa", tokenAB)] []
            (some balancesEqPair) true "  " ↔
          ∃ v : Int, getBalance (some balancesEqPair) true a = some v ∧
            0 < v))) :=
  ⟨by decide,
    tokensToShow_empty_query_iff [("0xa", tokenAB)] []
      (some balancesEqPair) true "  " (by decide)⟩

/-- C4 fails as stated: with user and list maps empty, no balance map,
deposit mode, and the query "z" (non-empty and not a substring of
"ethereumeth") the native-asset entry is not in the resulting display list
at all. -/
theorem tokensToShow_native_absent_counterexample :
    ETH_IDENTIFIER ∉ tokensToShow [] [] none true "z" := by decide

/-- C4 amended: the native-asset entry is present in the display list iff
its filter clause passes — the trimmed lower-cased query is empty or is a
substring of "ethereumeth" — and whenever it is present it is the first
element. -/
theorem tokensToShow_native_first
    (user lists : List (String × SearchableToken))
    (balances : Option Balances) (isDepositMode : Bool) (newToken : String)
    (h : toLowerStr (trimStr newToken) = "" ∨
      containsStr "ethereumeth" (toLowerStr (trimStr newToken)) = true) :
    (tokensToShow user lists balances isDepositMode newToken).head? =
        some ETH_IDENTIFIER ∧
    ETH_IDENTIFIER ∈
      tokensToShow user lists balances isDepositMode newToken := by
  have hp : showToken user lists balances isDepositMode
      (toLowerStr (trimStr newToken)) ETH_IDENTIFIER = true := by
    rcases h with h | h
    · simp [showToken, h]
    · by_cases hs : toLowerStr (trimStr newToken) = ""
      · simp [showToken, hs]
      · simp [showToken, hs, h]
  have hstep :
      tokensToShow user lists balances isDepositMode newToken =
        ETH_IDENTIFIER ::
          insertionSort (tokenLE balances isDepositMode)
            ((dedupFirst (keys user ++ keys lists)).filter
              (showToken user lists balances isDepositMode
                (toLowerStr (trimStr newToken)))) := by
    simp only [tokensToShow, candidateList]
    rw [List.filter_cons_of_pos hp]
    simp only [insertionSort]
    rw [insertSorted_of_forall _ _ (tokenLE_eth_left balances isDepositMode)]
  rw [hstep]
  exact ⟨rfl, List.mem_cons_self _ _⟩

/-- Closed instance of `tokensToShow_native_first` at the query "eth". -/
theorem tokensToShow_native_first_witness :
    (toLowerStr (trimStr "eth") = "" ∨
      containsStr "ethereumeth" (toLowerStr (trimStr "eth")) = true) ∧
    ((tokensToShow [("0xa", tokenAB)] [] none true "eth").head? =
        some ETH_IDENTIFIER ∧
      ETH_IDENTIFIER ∈ tokensToShow [("0xa", tokenAB)] [] none true "eth") :=
  ⟨by decide,
    tokensToShow_native_first [("0xa", tokenAB)] [] none true "eth"
      (by decide)⟩

/-- C5 fails as stated: with the query "ab" the token named "a" with symbol
"b" survives filtering (the query spans the name/symbol boundary of the
concatenated haystack), yet no individual field — name, symbol, address, or
secondary-chain address — contains the query as a case-insensitive
substring. -/
theorem tokensToShow_field_match_counterexample :
    "0xa" ∈ tokensToShow [("0xa", tokenAB)] [] none true "ab" ∧
    containsStr (toLowerStr tokenAB.name) (toLowerStr (trimStr "ab"))
        = false ∧
    containsStr (toLowerStr tokenAB.symbol) (toLowerStr (trimStr "ab"))
        = false ∧
    containsStr (toLowerStr tokenAB.address) (toLowerStr (trimStr "ab"))
        = false ∧
    containsStr (toLowerStr (tokenAB.l2Address.getD ""))
        (toLowerStr (trimStr "ab")) = false := by decide

/-- C5 amended: for every non-empty query, every non-native candidate that
survives filtering has a consulted record whose lower-cased concatenation of
name, symbol, address, and secondary-chain address contains the query as a
substring (the match may span field boundaries, so no individual field need
contain it). -/
theorem tokensToShow_search_sound
    (user lists : List (String × SearchableToken))
    (balances : Option Balances) (isDepositMode : Bool) (newToken : String)
    (hq : toLowerStr (trimStr newToken) ≠ "") :
    ∀ a : String,
      a ∈ tokensToShow user lists balances isDepositMode newToken →
      a ≠ ETH_IDENTIFIER →
      ∃ t, searchRecord user lists a = some t ∧
        containsStr (searchText t) (toLowerStr (trimStr newToken)) = true := by
  intro a hmem ha
  rw [mem_tokensToShow] at hmem
  obtain ⟨-, hp⟩ := hmem
  cases ht : searchRecord user lists a with
  | none => simp [showToken, hq, ha, ht] at hp
  | some t =>
    refine ⟨t, rfl, ?_⟩
    simpa [showToken, hq, ha, ht] using hp

/-- Closed instance of `tokensToShow_search_sound` at a concrete map and
query. -/
theorem tokensToShow_search_sound_witness :
    (toLowerStr (trimStr "ab") ≠ "") ∧
    (∀ a : String,
      a ∈ tokensToShow [("0xa", tokenAB)] [] none true "ab" →
      a ≠ ETH_IDENTIFIER →
      ∃ t, searchRecord [("0xa", tokenAB)] [] a = some t ∧
        containsStr (searchText t) (toLowerStr (trimStr "ab")) = true) :=
  ⟨by decide,
    tokensToShow_search_sound [("0xa", tokenAB)] [] none true "ab"
      (by decide)⟩

/-- C2 fails as stated: for two distinct addresses holding the same present
balance the comparator returns 1 in both directions — each is ordered
strictly after the other — so the relation it induces is not total (hence
not a total order). -/
theorem compareTokens_not_total_counterexample :
    compareTokens (some balancesEqPair) true "0xa" "0xb" = 1 ∧
    compareTokens (some balancesEqPair) true "0xb" "0xa" = 1 ∧
    "0xa" ≠ "0xb" ∧
    ¬(compareTokens (some balancesEqPair) true "0xa" "0xb" ≤ 0 ∨
      compareTokens (some balancesEqPair) true "0xb" "0xa" ≤ 0) := by decide

/-- C2 amended: the comparator realizes the stated precedence — the native
entry before every other candidate, an absent balance after a present one,
two absent balances equal (the model sort is stable, so their relative order
is unchanged), and of two present balances the strictly larger first — but
for two present balances that are equal it returns 1 (first argument after
the second) in both directions, so it is a total order only away from ties
between present balances. -/
theorem compareTokens_precedence (balances : Option Balances)
    (isDepositMode : Bool) (a b : String)
    (ha : a ≠ ETH_IDENTIFIER) (hb : b ≠ ETH_IDENTIFIER) :
    compareTokens balances isDepositMode ETH_IDENTIFIER b = -1 ∧
    compareTokens balances isDepositMode a ETH_IDENTIFIER = 1 ∧
    (getBalance balances isDepositMode a = none →
      getBalance balances isDepositMode b = none →
      compareTokens balances isDepositMode a b = 0) ∧
    (∀ v : Int, getBalance balances isDepositMode a = none →
      getBalance balances isDepositMode b = some v →
      compareTokens balances isDepositMode a b = 1) ∧
    (∀ v : Int, getBalance balances isDepositMode a = some v →
      getBalance balances isDepositMode b = none →
      compareTokens balances isDepositMode a b = -1) ∧
    (∀ va vb : Int, getBalance balances isDepositMode a = some va →
      getBalance balances isDepositMode b = some vb →
      compareTokens balances isDepositMode a b =
        if vb < va then -1 else 1) := by
  refine ⟨compareTokens_eth_left balances isDepositMode b, ?_, ?_, ?_, ?_, ?_⟩
  · simp [compareTokens, ha]
  · intro h1 h2
    simp [compareTokens, ha, hb, h1, h2]
  · intro v h1 h2
    simp [compareTokens, ha, hb, h1, h2]
  · intro v h1 h2
    simp [compareTokens, ha, hb, h1, h2]
  · intro va vb h1 h2
    simp [compareTokens, ha, hb, h1, h2]

/-- Closed instance of `compareTokens_precedence` at the two equal-balance
addresses of `balancesEqPair`. -/
theorem compareTokens_precedence_witness :
    ("0xa" ≠ ETH_IDENTIFIER) ∧ ("0xb" ≠ ETH_IDENTIFIER) ∧
    (compareTokens (some balancesEqPair) true ETH_IDENTIFIER "0xb" = -1 ∧
      compareTokens (some balancesEqPair) true "0xa" ETH_IDENTIFIER = 1 ∧
      (getBalance (some balancesEqPair) true "0xa" = none →
        getBalance (some balancesEqPair) true "0xb" = none →
        compareTokens (some balancesEqPair) true "0xa" "0xb" = 0) ∧
      (∀ v : Int, getBalance (some balancesEqPair) true "0xa" = none →
        getBalance (some balancesEqPair) true "0xb" = some v →
        compareTokens (some balancesEqPair) true "0xa" "0xb" = 1) ∧
      (∀ v : Int, getBalance (some balancesEqPair) true "0xa" = some v →
        getBalance (some balancesEqPair) true "0xb" = none →
        compareTokens (some balancesEqPair) true "0xa" "0xb" = -1) ∧
      (∀ va vb : Int, getBalance (some balancesEqPair) true "0xa" = some va →
        getBalance (some balancesEqPair) true "0xb" = some vb →
        compareTokens (some balancesEqPair) true "0xa" "0xb" =
          if vb < va then -1 else 1)) :=
  ⟨by decide, by decide,
    compareTokens_precedence (some balancesEqPair) true "0xa" "0xb"
      (by decide) (by decide)⟩

/-- C6: selecting a token whose address is absent from the active
bridge-token set signals "import needed" with exactly that address and
stops — no metadata fetch, no selection change, no other signal. -/
theorem selectToken_import_needed (known : String → Bool)
    (fetch : Except JsError (Option L1TokenData)) (t : SearchableToken)
    (haddr : t.address ≠ "") (hk : known t.address = false) :
    selectToken (some known) fetch (some t) =
      { closed := true, clearedSelection := false,
        importRequested := some t.address, fetchAttempted := false,
        updateRequested := false, selectionSet := none,
        alerted := false, logged := false } := by
  simp [selectToken, selectTokenAttempt, haddr, hk]

/-- Closed instance of `selectToken_import_needed` with an empty
bridge-token set. -/
theorem selectToken_import_needed_witness :
    (tokenAB.address ≠ "") ∧
    ((fun _ => false : String → Bool) tokenAB.address = false) ∧
    selectToken (some (fun _ => false)) (Except.ok none) (some tokenAB) =
      { closed := true, clearedSelection := false,
        importRequested := some tokenAB.address, fetchAttempted := false,
        updateRequested := false, selectionSet := none,
        alerted := false, logged := false } :=
  ⟨by decide, rfl,
    selectToken_import_needed (fun _ => false) (Except.ok none) tokenAB
      (by decide) rfl⟩

/-- C7: when the metadata fetch for an already-known token rejects, the
dispatcher still returns an outcome (the error is caught at the call site
and never propagates), the selection is unchanged, a disabled-token error
produces the user-facing notice, and every failure is logged, with nothing
else signalled. -/
theorem selectToken_fetch_failure (known : String → Bool) (e : JsError)
    (t : SearchableToken)
    (haddr : t.address ≠ "") (hk : known t.address = true) :
    selectToken (some known) (Except.error e) (some t) =
      { closed := true, clearedSelection := false, importRequested := none,
        fetchAttempted := true, updateRequested := false,
        selectionSet := none,
        alerted := decide (e.name = "TokenDisabledError"),
        logged := true } := by
  simp [selectToken, selectTokenAttempt, haddr, hk]

/-- Closed instance of `selectToken_fetch_failure` at a disabled-token
error. -/
theorem selectToken_fetch_failure_witness :
    (tokenAB.address ≠ "") ∧
    ((fun _ => true : String → Bool) tokenAB.address = true) ∧
    selectToken (some (fun _ => true))
        (Except.error { name := "TokenDisabledError" }) (some tokenAB) =
      { closed := true, clearedSelection := false, importRequested := none,
        fetchAttempted := true, updateRequested := false,
        selectionSet := none,
        alerted := decide
          (({ name := "TokenDisabledError" } : JsError).name =
            "TokenDisabledError"),
        logged := true } :=
  ⟨by decide, rfl,
    selectToken_fetch_failure (fun _ => true) { name := "TokenDisabledError" }
      tokenAB (by decide) rfl⟩

/-- C8: for an address present in both maps, the filter consults the
user-map record while the renderer delivers the list-map record to the
selection callback; when the two records differ, the record matched by
search is not the record delivered on selection. -/
theorem searchRecord_vs_renderedToken
    (user lists : List (String × SearchableToken)) (a : String)
    (tu tl : SearchableToken)
    (hu : lookupAssoc user a = some tu) (hl : lookupAssoc lists a = some tl) :
    searchRecord user lists a = some tu ∧
    renderedToken user lists a = some tl ∧
    (∀ (balances : Option Balances) (isDepositMode : Bool) (s : String),
      s ≠ "" → a ≠ ETH_IDENTIFIER →
      showToken user lists balances isDepositMode s a =
        containsStr (searchText tu) s) ∧
    (tu ≠ tl → renderedToken user lists a ≠ searchRecord user lists a) := by
  have hs : searchRecord user lists a = some tu := by
    simp [searchRecord, hu, Option.orElse]
  have hr : renderedToken user lists a = some tl := by
    simp [renderedToken, hl, Option.orElse]
  refine ⟨hs, hr, ?_, ?_⟩
  · intro balances isDepositMode s hsne ha
    simp [showToken, hsne, ha, hs]
  · intro hne
    rw [hs, hr]
    intro hcontra
    exact hne (Option.some.inj hcontra).symm

/-- Closed instance of `searchRecord_vs_renderedToken` at an address carried
by both maps with differing records. -/
theorem searchRecord_vs_renderedToken_witness :
    (lookupAssoc [("0xa", tokenAB)] "0xa" = some tokenAB) ∧
    (lookupAssoc [("0xa", tokenABListed)] "0xa" = some tokenABListed) ∧
    (searchRecord [("0xa", tokenAB)] [("0xa", tokenABListed)] "0xa" =
        some tokenAB ∧
      renderedToken [("0xa", tokenAB)] [("0xa", tokenABListed)] "0xa" =
        some tokenABListed ∧
      (∀ (balances : Option Balances) (isDepositMode : Bool) (s : String),
        s ≠ "" → "0xa" ≠ ETH_IDENTIFIER →
        showToken [("0xa", tokenAB)] [("0xa", tokenABListed)] balances
            isDepositMode s "0xa" =
          containsStr (searchText tokenAB) s) ∧
      (tokenAB ≠ tokenABListed →
        renderedToken [("0xa", tokenAB)] [("0xa", tokenABListed)] "0xa" ≠
          searchRecord [("0xa", tokenAB)] [("0xa", tokenABListed)] "0xa")) :=
  ⟨by decide, by decide,
    searchRecord_vs_renderedToken [("0xa", tokenAB)] [("0xa", tokenABListed)]
      "0xa" tokenAB tokenABListed (by decide) (by decide)⟩

/-- C9: invoking the dispatcher with a non-null record whose address is the
empty string closes the modal and does nothing else: no clear-selection, no
import-needed, no selection change, no fetch. -/
theorem selectToken_empty_address (bridgeTokens : Option (String → Bool))
    (fetch : Except JsError (Option L1TokenData)) (t : SearchableToken)
    (h : t.address = "") :
    selectToken bridgeTokens fetch (some t) =
      { closed := true, clearedSelection := false, importRequested := none,
        fetchAttempted := false, updateRequested := false,
        selectionSet := none, alerted := false, logged := false } := by
  simp [selectToken, h]

/-- Sample record with an empty address string. -/
def tokenNoAddress : SearchableToken :=
  { address := "", name := "ghost", symbol := "GST", decimals := 18,
    logoURI := none, l2Address := none, tokenLists := [], listID := none }

/-- Closed instance of `selectToken_empty_address`. -/
theorem selectToken_empty_address_witness :
    (tokenNoAddress.address = "") ∧
    selectToken (some (fun _ => true)) (Except.ok none)
        (some tokenNoAddress) =
      { closed := true, clearedSelection := false, importRequested := none,
        fetchAttempted := false, updateRequested := false,
        selectionSet := none, alerted := false, logged := false } :=
  ⟨by decide,
    selectToken_empty_address (some (fun _ => true)) (Except.ok none)
      tokenNoAddress (by decide)⟩

/-- Invariant of the add-new-token flow: the number of in-flight requests is
1 exactly while the `isAddingToken` flag is set, else 0. -/
def addTokenInv (s : AddTokenState) : Prop :=
  s.outstanding = if s.isAddingToken then 1 else 0

theorem addTokenInv_step (e : AddTokenEvent) (s : AddTokenState)
    (h : addTokenInv s) : addTokenInv (addTokenStep e s) := by
  cases e with
  | submit valid =>
    unfold addTokenStep
    by_cases hc : valid = false ∨ s.isAddingToken = true
    · simpa [hc] using h
    · push_neg at hc
      unfold addTokenInv at h ⊢
      simp only [if_neg (by tauto : ¬(valid = false ∨ s.isAddingToken = true))]
      simp only [hc.2, if_false, Bool.not_eq_true] at h
      simp [h]
  | settle ok =>
    unfold addTokenStep
    by_cases hc : s.outstanding = 0
    · simpa [hc] using h
    · unfold addTokenInv at h ⊢
      simp only [if_neg hc]
      cases hflag : s.isAddingToken
      · exfalso
        rw [hflag] at h
        simp at h
        exact hc h
      · rw [hflag] at h
        simp at h
        simp [h]

theorem addTokenInv_run (evs : List AddTokenEvent) :
    addTokenInv (addTokenRun evs) := by
  have step : ∀ (l : List AddTokenEvent) (s : AddTokenState), addTokenInv s →
      addTokenInv (l.foldl (fun s e => addTokenStep e s) s) := by
    intro l
    induction l with
    | nil => intro s hs; exact hs
    | cons e l ih =>
      intro s hs
      exact ih _ (addTokenInv_step e s hs)
  exact step evs _ rfl

/-- C10: from the initial state, at most one add-token request is ever
outstanding; while the `isAddingToken` flag is set every further submission
is ignored (a no-op on the state); and when an in-flight request settles —
fulfilled or rejected — the flag is cleared. -/
theorem addNewToken_single_flight :
    (∀ evs : List AddTokenEvent, (addTokenRun evs).outstanding ≤ 1) ∧
    (∀ (s : AddTokenState) (valid : Bool), s.isAddingToken = true →
      addTokenStep (AddTokenEvent.submit valid) s = s) ∧
    (∀ (s : AddTokenState) (ok : Bool), 0 < s.outstanding →
      (addTokenStep (AddTokenEvent.settle ok) s).isAddingToken = false) := by
  refine ⟨?_, ?_, ?_⟩
  · intro evs
    have h := addTokenInv_run evs
    unfold addTokenInv at h
    rw [h]
    cases (addTokenRun evs).isAddingToken <;> simp
  · intro s valid h
    simp [addTokenStep, h]
  · intro s ok h
    simp [addTokenStep, Nat.pos_iff_ne_zero.mp h]

/-- Closed instance of `addNewToken_single_flight`: a double submission
followed by a rejected settle, plus the guard and the `finally` clause at a
concrete in-flight state. -/
theorem addNewToken_single_flight_witness :
    (addTokenRun [AddTokenEvent.submit true, AddTokenEvent.submit true,
        AddTokenEvent.settle false]).outstanding ≤ 1 ∧
    (({ isAddingToken := true, outstanding := 1 } :
        AddTokenState).isAddingToken = true) ∧
    addTokenStep (AddTokenEvent.submit true)
        { isAddingToken := true, outstanding := 1 } =
      { isAddingToken := true, outstanding := 1 } ∧
    (0 < ({ isAddingToken := true, outstanding := 1 } :
        AddTokenState).outstanding) ∧
    (addTokenStep (AddTokenEvent.settle false)
        { isAddingToken := true, outstanding := 1 }).isAddingToken = false :=
  ⟨addNewToken_single_flight.1 _, rfl,
    addNewToken_single_flight.2.1 _ true rfl, by decide,
    addNewToken_single_flight.2.2 _ false (by decide)⟩

end TokenModal
